import Mathlib

/-!
Shallow embedding of the pump.fun scanner (scanner.py).

Timestamps are rational numbers of seconds since the epoch; USD amounts,
prices and transaction counts are rationals. JSON fields that may be
absent are Option values. The stores (seen tokens, price history, alert
counters) are modelled as functions from address strings to optional
records, matching Python dict lookup pointwise. Network calls
(DexScreener enrichment, Telegram dispatch) are modelled as explicit
oracle parameters: the value the call would return is passed in.
-/

set_option allowUnsafeReducibility true in
attribute [semireducible] Rat.add Rat.sub Rat.mul Rat.inv Rat.ofScientific

/-! Configuration constants, scanner.py lines 49-71. -/

def MIN_LIQUIDITY : ℚ := 20000

def MAX_LIQUIDITY : ℚ := 100000

def MAX_AGE_HOURS : ℚ := 72

def MIN_AGE_HOURS : ℚ := 4

def MIN_PRICE_MOMENTUM : ℚ := 1/5

def MIN_LIQUIDITY_GROWTH : ℚ := 3/2

def WEEKOLD_LIQ_MULTIPLIER : ℚ := 2

def MIN_VOLUME_SPIKE : ℚ := 5

def MIN_TXNS_FOR_SPIKE : ℚ := 10

def MIN_LIQ_GROWTH_24H : ℚ := 3/2

def REALERT_HOURS : ℚ := 6

def MAX_ALERTS_PER_TOKEN_PER_DAY : ℤ := 10

def HISTORY_MAX_AGE_HOURS : ℚ := 200

/-- One stored price and liquidity observation (written at scanner.py
lines 423-427). Samples read back from disk may lack fields, hence the
Option types; a missing ts reads as 0 via get with default, as in the
Python s.get with default 0. -/
structure Sample where
  ts : Option ℚ
  priceUsd : Option ℚ
  liquidity : Option ℚ
deriving DecidableEq

/-- A per-address history record (written at scanner.py lines 432-441).
The updated field is doubly optional: none means the field is missing,
some none means it is present but not a parseable ISO timestamp, and
some (some t) means it parses to time t. The txns and volume fields are
read with default 0 in the Python, so they are total here. -/
structure HistRecord where
  priceUsd : Option ℚ
  liquidity : Option ℚ
  name : Option String
  txns_h1 : ℚ
  txns_h24 : ℚ
  volume_h1 : ℚ
  updated : Option (Option ℚ)
  samples : List Sample
deriving DecidableEq

/-- Result of a DexScreener enrichment call (scanner.py lines 264-269). -/
structure DexData where
  txns_h1 : ℚ
  txns_h24 : ℚ
  volume_h1 : ℚ
  volume_h24 : ℚ
deriving DecidableEq

/-- A token snapshot from the feed. createdAt is the parsed creation
timestamp; a missing or unparseable createdAt is collapsed to none since
both make analyze_token return early (scanner.py lines 332-341). -/
structure Token where
  tokenAddress : Option String
  name : Option String
  symbol : Option String
  createdAt : Option ℚ
  liquidity : Option ℚ
  priceUsd : Option ℚ
deriving DecidableEq

/-- The kind of an emitted indicator (the format strings of scanner.py
lines 370-414 carry the magnitudes; only the kind matters here). -/
inductive Indicator where
  | priceMomentum
  | liqGrowth
  | weekoldLiq
  | liq24Growth
  | volumeSpike
deriving DecidableEq

/-- The gem dict returned by analyze_token (scanner.py lines 444-450). -/
structure Gem where
  token : Token
  indicators : List Indicator
  age_hours : ℚ
  liquidity : ℚ
  dex_data : Option DexData
deriving DecidableEq

/-- A daily alert counter entry (scanner.py lines 200-206). The date
field is optional because a loaded entry may lack it. -/
structure CountEntry where
  date : Option String
  count : ℤ
deriving DecidableEq

/-- An append-only alert log entry (scanner.py lines 209-216). -/
structure LogEntry where
  ts : ℚ
  addr : Option String
  name : Option String
  symbol : Option String
  liquidity : ℚ
deriving DecidableEq

/-- The seen-tokens store: address to timestamp of last alert. -/
abbrev Seen := String → Option ℚ

/-- The price history store: address to history record. -/
abbrev History := String → Option HistRecord

/-- The daily alert counter store. -/
abbrev Counts := String → Option CountEntry

/-- should_alert, scanner.py lines 174-185: with a zero re-alert window
allow only never-alerted addresses; otherwise allow when no last-alert
timestamp is stored or at least realert_hours hours have elapsed. -/
def should_alert (realert_hours now : ℚ) (seen : Seen) (addr : String) : Bool :=
  if realert_hours = 0 then
    (seen addr).isNone
  else
    match seen addr with
    | none => true
    | some last_dt => decide ((now - last_dt) / 3600 ≥ realert_hours)

/-- can_alert_today, scanner.py lines 192-197. today is the current UTC
day key string. -/
def can_alert_today (today : String) (alert_counts : Counts) (addr : String) : Bool :=
  match alert_counts addr with
  | none => true
  | some entry =>
      if entry.date ≠ some today then true
      else decide (entry.count < MAX_ALERTS_PER_TOKEN_PER_DAY)

/-- bump_alert_count, scanner.py lines 200-206: reset to count 1 under
the current day key when no entry exists or the stored day key differs,
otherwise increment in place. -/
def bump_alert_count (today : String) (alert_counts : Counts) (addr : String) : Counts :=
  match alert_counts addr with
  | none => fun a => if a = addr then some { date := some today, count := 1 } else alert_counts a
  | some entry =>
      if entry.date ≠ some today then
        fun a => if a = addr then some { date := some today, count := 1 } else alert_counts a
      else
        fun a => if a = addr then some { date := entry.date, count := entry.count + 1 } else alert_counts a

/-- record_alert, scanner.py lines 209-216. -/
def record_alert (now : ℚ) (alert_log : List LogEntry) (token : Token) (liquidity : ℚ) : List LogEntry :=
  alert_log ++ [{ ts := now, addr := token.tokenAddress, name := token.name,
                  symbol := token.symbol, liquidity := liquidity }]

/-- Whether prune_price_history keeps a record, scanner.py lines 156-167.
The fresh branch (updated parses and exceeds the cutoff) keeps the record
and continues; every other path, including the branch where the parsed
timestamp is at or below the cutoff, falls through to the unconditional
keep at line 167, so the function keeps every record. The two true arms
of the inner if mirror that fall-through literally. -/
def prune_keeps (now : ℚ) (data : HistRecord) : Bool :=
  match data.updated with
  | some (some updated_dt) =>
      if updated_dt > now - HISTORY_MAX_AGE_HOURS * 3600 then
        true
      else
        true
  | some none => true
  | none => true

/-- prune_price_history, scanner.py lines 152-171, as a pointwise map on
the history store. -/
def prune_price_history (now : ℚ) (history : History) : History :=
  fun addr =>
    match history addr with
    | some data => if prune_keeps now data then some data else none
    | none => none

/-- The rules 2-4 momentum block, scanner.py lines 358-380, entered only
when a previous record and a nonzero current price exist. A zero prior
price or prior liquidity makes the float conversion or division raise in
the Python try block, discarding all three indicators; a falsy (zero or
missing) prior value skips the block the same way. -/
def momentum_indicators (age_hours current_price liq : ℚ)
    (prev_price prev_liq : Option ℚ) : List Indicator :=
  match prev_price, prev_liq with
  | some pp, some pl =>
      if pp = 0 ∨ pl = 0 then
        []
      else
        let price_change := (current_price - pp) / pp
        let liq_ratio := liq / pl
        (if price_change ≥ MIN_PRICE_MOMENTUM then [Indicator.priceMomentum] else []) ++
        (if liq_ratio ≥ MIN_LIQUIDITY_GROWTH then [Indicator.liqGrowth] else []) ++
        (if age_hours ≥ 168 ∧ liq_ratio ≥ WEEKOLD_LIQ_MULTIPLIER then [Indicator.weekoldLiq] else [])
  | _, _ => []

/-- The 24h ratio computation of scanner.py lines 383-396: none when the
block is not entered (age below 24h or no samples), when no sample is at
or before now minus 24h, or when the old liquidity is absent, zero or
negative; otherwise the ratio of current to old liquidity. -/
def gate24_ratio (now liq age_hours : ℚ) (hist_samples : List Sample) : Option ℚ :=
  if age_hours ≥ 24 ∧ hist_samples ≠ [] then
    let cutoff_ts := now - 24 * 3600
    let old_samples := hist_samples.filter (fun s => decide (s.ts.getD 0 ≤ cutoff_ts))
    match old_samples.getLast? with
    | some old_sample =>
        let old_liq := old_sample.liquidity.getD 0
        if old_liq > 0 then some (liq / old_liq) else none
    | none => none
  else
    none

/-- The volume spike rule, scanner.py lines 406-416. -/
def spike_indicators (history : History) (addr : String) (dex_data : Option DexData) : List Indicator :=
  match history addr, dex_data with
  | some prev, some d =>
      if prev.txns_h1 ≥ MIN_TXNS_FOR_SPIKE ∧ d.txns_h1 > 0 ∧ d.txns_h1 / prev.txns_h1 ≥ MIN_VOLUME_SPIKE then
        [Indicator.volumeSpike]
      else
        []
  | _, _ => []

/-- DexScreener is queried only when the address already has history
(scanner.py lines 403-405); dex is the oracle answer of that call. -/
def dex_fetched (history : History) (addr : String) (dex : Option DexData) : Option DexData :=
  match history addr with
  | some _ => dex
  | none => none

/-- The Python empty dict prev_hist with its per-field get defaults. -/
def emptyRecord : HistRecord :=
  { priceUsd := none, liquidity := none, name := none, txns_h1 := 0, txns_h24 := 0,
    volume_h1 := 0, updated := none, samples := [] }

/-- The samples list slice of the Python, keeping the last 500. -/
def takeLast (n : Nat) (l : List Sample) : List Sample :=
  l.drop (l.length - n)

/-- The samples maintenance of scanner.py lines 420-430: append the new
observation, drop samples older than 7 days, keep the newest 500. -/
def updated_samples (now : ℚ) (price_usd : Option ℚ) (liq : ℚ) (samples : List Sample) : List Sample :=
  let appended := samples ++ [{ ts := some now, priceUsd := price_usd, liquidity := some liq }]
  let cutoff_ts := now - 7 * 24 * 3600
  takeLast 500 (appended.filter (fun s => decide (s.ts.getD 0 ≥ cutoff_ts)))

/-- The history record rewrite of scanner.py lines 418-441. -/
def update_history (now : ℚ) (addr : String) (token : Token) (liq : ℚ)
    (dex_data : Option DexData) (history : History) : History :=
  let prev_hist := (history addr).getD emptyRecord
  let samples := updated_samples now token.priceUsd liq prev_hist.samples
  fun a =>
    if a = addr then
      some { priceUsd := token.priceUsd
             liquidity := some liq
             name := token.name
             txns_h1 := match dex_data with | some d => d.txns_h1 | none => prev_hist.txns_h1
             txns_h24 := match dex_data with | some d => d.txns_h24 | none => prev_hist.txns_h24
             volume_h1 := match dex_data with | some d => d.volume_h1 | none => prev_hist.volume_h1
             updated := some (some now)
             samples := samples }
    else history a

/-- The samples list consulted by the 24h gate, scanner.py line 384. -/
def hist_samples (history : History) (addr : String) : List Sample :=
  match history addr with
  | some r => r.samples
  | none => []

/-- The tail of analyze_token after the 24h gate, scanner.py lines
402-452: volume spike rule, unconditional history rewrite, and the gem
result when at least one indicator fired. -/
def analyze_tail (now : ℚ) (token : Token) (addr : String) (age_hours liq : ℚ)
    (indicators : List Indicator) (history : History) (dex : Option DexData) :
    Option Gem × History :=
  let dex_data := dex_fetched history addr dex
  let indicators2 := indicators ++ spike_indicators history addr dex_data
  let history2 := update_history now addr token liq dex_data history
  (if indicators2 = [] then none
   else some { token := token, indicators := indicators2, age_hours := age_hours,
               liquidity := liq, dex_data := dex_data },
   history2)

/-- The body of analyze_token after the eligibility checks, scanner.py
lines 353-452: momentum indicators, then the 24h liquidity growth gate
(a hard reject below threshold), then the tail. -/
def analyze_core (now : ℚ) (token : Token) (addr : String) (age_hours liq : ℚ)
    (history : History) (dex : Option DexData) : Option Gem × History :=
  let indicators1 :=
    match history addr, token.priceUsd with
    | some prev, some cp =>
        if cp = 0 then [] else momentum_indicators age_hours cp liq prev.priceUsd prev.liquidity
    | _, _ => []
  match gate24_ratio now liq age_hours (hist_samples history addr) with
  | some r =>
      if r ≥ MIN_LIQ_GROWTH_24H then
        analyze_tail now token addr age_hours liq (indicators1 ++ [Indicator.liq24Growth]) history dex
      else
        (none, history)
  | none => analyze_tail now token addr age_hours liq indicators1 history dex

/-- analyze_token, scanner.py lines 321-452. Returns the optional gem
and the history store after the call; every early return leaves the
history unchanged. -/
def analyze_token (now : ℚ) (token : Token) (history : History) (seen : Seen)
    (dex : Option DexData) : Option Gem × History :=
  match token.tokenAddress with
  | none => (none, history)
  | some addr =>
    if should_alert REALERT_HOURS now seen addr then
      match token.createdAt with
      | none => (none, history)
      | some created_dt =>
        let age_hours := (now - created_dt) / 3600
        if age_hours < MIN_AGE_HOURS ∨ age_hours > MAX_AGE_HOURS then
          (none, history)
        else
          let liq := token.liquidity.getD 0
          if liq < MIN_LIQUIDITY then
            (none, history)
          else if liq > MAX_LIQUIDITY then
            (none, history)
          else
            analyze_core now token addr age_hours liq history dex
    else
      (none, history)

/-- The alert-gate state mutated by the dispatch loop of main. -/
structure LoopState where
  seen : Seen
  alert_counts : Counts
  alert_log : List LogEntry

/-- The per-gem dispatch step of main, scanner.py lines 540-557. send_ok
is the oracle answer of the Telegram send; the None-address dict key the
Python would use is collapsed to the empty string, unreachable for gems
produced by analyze_token. -/
def process_gem (now : ℚ) (today : String) (send_ok : Bool) (st : LoopState) (gem : Gem) :
    LoopState :=
  let addr := gem.token.tokenAddress.getD ""
  if ¬ can_alert_today today st.alert_counts addr then
    st
  else if send_ok then
    { seen := fun a => if a = addr then some now else st.seen a
      alert_counts := bump_alert_count today st.alert_counts addr
      alert_log := record_alert now st.alert_log gem.token gem.liquidity }
  else
    st

/-- Non-decreasing sample timestamps, reading a missing ts as 0 as the
Python get with default does. -/
def sampleLE (a b : Sample) : Prop :=
  a.ts.getD 0 ≤ b.ts.getD 0

instance : DecidableRel sampleLE :=
  fun a b => inferInstanceAs (Decidable (a.ts.getD 0 ≤ b.ts.getD 0))

/-! Claim theorems. -/

/-- C1: for every token whose computed age in hours is strictly below
MIN_AGE_HOURS or strictly above MAX_AGE_HOURS, or whose liquidity is
strictly below MIN_LIQUIDITY or strictly above MAX_LIQUIDITY,
analyze_token returns no result for that poll. -/
theorem C1_ineligible_token_no_result
    (now : ℚ) (token : Token) (history : History) (seen : Seen) (dex : Option DexData)
    (created : ℚ) (hc : token.createdAt = some created)
    (h : (now - created) / 3600 < MIN_AGE_HOURS ∨ (now - created) / 3600 > MAX_AGE_HOURS
       ∨ token.liquidity.getD 0 < MIN_LIQUIDITY ∨ token.liquidity.getD 0 > MAX_LIQUIDITY) :
    (analyze_token now token history seen dex).1 = none := by
  have hp : analyze_token now token history seen dex = (none, history) := by
    rcases haddr : token.tokenAddress with _ | addr
    · simp [analyze_token, haddr]
    · simp only [analyze_token, haddr, hc]
      split
      · split_ifs with h1 h2 h3
        · rfl
        · rfl
        · rfl
        · exfalso
          rcases h with h | h | h | h
          · exact h1 (Or.inl h)
          · exact h1 (Or.inr h)
          · exact h2 h
          · exact h3 h
      · rfl
  rw [hp]

/-- C1 witness: a concrete token aged 2 hours is rejected. -/
theorem C1_witness :
    (analyze_token 1000000
      { tokenAddress := some "a", name := none, symbol := none,
        createdAt := some 992800, liquidity := some 50000, priceUsd := some 2 }
      (fun _ => none) (fun _ => none) none).1 = none :=
  C1_ineligible_token_no_result 1000000 _ _ _ none 992800 rfl (Or.inl (by decide))

/-- C5: should_alert implements the cooldown rule. With a zero re-alert
window it allows exactly the never-alerted addresses; otherwise it
allows exactly when the address was never alerted or at least
realert_hours hours elapsed since the stored timestamp; and with the
configured REALERT_HOURS of 6 and a last alert at T it is false strictly
between T and T plus six hours and true at exactly T plus six hours. -/
theorem C5_cooldown_rule (rh now T : ℚ) (seen : Seen) (addr : String) :
    (rh = 0 → (should_alert rh now seen addr = true ↔ seen addr = none))
    ∧ (rh ≠ 0 → (should_alert rh now seen addr = true ↔
        seen addr = none ∨ ∃ last, seen addr = some last ∧ (now - last) / 3600 ≥ rh))
    ∧ (seen addr = some T →
        (∀ t : ℚ, T < t → t < T + REALERT_HOURS * 3600 →
          should_alert REALERT_HOURS t seen addr = false)
        ∧ should_alert REALERT_HOURS (T + REALERT_HOURS * 3600) seen addr = true) := by
  refine ⟨?_, ?_, ?_⟩
  · intro h0
    simp only [should_alert, h0, if_true, Option.isNone_iff_eq_none]
  · intro hne
    simp only [should_alert, hne, if_false]
    rcases hs : seen addr with _ | last
    · simp
    · simp only [decide_eq_true_eq]
      constructor
      · intro hle
        exact Or.inr ⟨last, rfl, hle⟩
      · rintro (h | ⟨l, hl, hle⟩)
        · exact absurd h (by simp)
        · injection hl with hl
          rw [hl]
          exact hle
  · intro hT
    constructor
    · intro t ht1 ht2
      simp only [should_alert, REALERT_HOURS, hT]
      rw [if_neg (by norm_num : ¬(6:ℚ) = 0)]
      simp only [decide_eq_false_iff_not, ge_iff_le, not_le]
      rw [div_lt_iff₀ (by norm_num : (0:ℚ) < 3600)]
      rw [REALERT_HOURS] at ht2
      linarith
    · simp only [should_alert, REALERT_HOURS, hT]
      rw [if_neg (by norm_num : ¬(6:ℚ) = 0)]
      simp only [decide_eq_true_eq, ge_iff_le]
      rw [le_div_iff₀ (by norm_num : (0:ℚ) < 3600)]
      linarith

/-- C5 witness: with the last alert stored at time 0, should_alert is
false one hour later and true at exactly six hours. -/
theorem C5_witness :
    should_alert REALERT_HOURS 3600 (fun a => if a = "x" then some 0 else none) "x" = false
    ∧ should_alert REALERT_HOURS (0 + REALERT_HOURS * 3600)
        (fun a => if a = "x" then some 0 else none) "x" = true :=
  ⟨((C5_cooldown_rule 1 0 0 (fun a => if a = "x" then some 0 else none) "x").2.2
      (by decide)).1 3600 (by decide) (by decide),
   ((C5_cooldown_rule 1 0 0 (fun a => if a = "x" then some 0 else none) "x").2.2
      (by decide)).2⟩

/-- C6: the daily alert cap. A stored entry carrying the current UTC day
key with count at least MAX_ALERTS_PER_TOKEN_PER_DAY makes
can_alert_today false; a stored entry whose day key differs makes it
true regardless of the count, and the next bump resets the counter to
one under the current day key. -/
theorem C6_daily_cap (today : String) (counts : Counts) (addr : String) (entry : CountEntry)
    (he : counts addr = some entry) :
    (entry.date = some today → MAX_ALERTS_PER_TOKEN_PER_DAY ≤ entry.count →
      can_alert_today today counts addr = false)
    ∧ (entry.date ≠ some today → can_alert_today today counts addr = true)
    ∧ (entry.date ≠ some today →
      bump_alert_count today counts addr addr = some { date := some today, count := 1 }) := by
  refine ⟨?_, ?_, ?_⟩
  · intro hd hcount
    simp only [can_alert_today, he, hd, ne_eq, not_true_eq_false, if_false,
      decide_eq_false_iff_not, not_lt]
    exact hcount
  · intro hd
    simp [can_alert_today, he, hd]
  · intro hd
    simp [bump_alert_count, he, hd]

/-- C6 witness: an entry for the current day with count 10 is capped. -/
theorem C6_witness :
    can_alert_today "2026-10-12"
      (fun a => if a = "t" then some { date := some "2026-10-12", count := 10 } else none)
      "t" = false :=
  (C6_daily_cap "2026-10-12"
      (fun a => if a = "t" then some { date := some "2026-10-12", count := 10 } else none)
      "t" { date := some "2026-10-12", count := 10 } (by decide)).1 rfl (by decide)

/-- A record whose last update parses to now minus 201 hours, used to
evaluate pruning at the claimed failing input (now is 1000000 seconds,
so the update time is 276400 = 1000000 - 201 * 3600). -/
def staleRecord : HistRecord :=
  { priceUsd := none, liquidity := none, name := none, txns_h1 := 0, txns_h24 := 0,
    volume_h1 := 0, updated := some (some 276400), samples := [] }

/-- C9: evaluation at the failing input. The stored record has its
updated timestamp strictly before the 200 hour cutoff, yet
prune_price_history keeps it unchanged: in the source the stale branch
falls through to the unconditional keep of line 167, so no record is
ever removed, against the claim and the docstring of the function. -/
theorem C9_stale_record_not_removed :
    prune_price_history 1000000 (fun a => if a = "a" then some staleRecord else none) "a"
      = some staleRecord
    ∧ (276400 : ℚ) < 1000000 - HISTORY_MAX_AGE_HOURS * 3600 := by
  constructor
  · decide
  · decide

/-- C10: a history record whose updated field is missing or not a
parseable timestamp is retained unchanged by prune_price_history, no
matter how old the record is. -/
theorem C10_unparseable_updated_retained
    (now : ℚ) (history : History) (addr : String) (data : HistRecord)
    (hrec : history addr = some data)
    (hupd : data.updated = none ∨ data.updated = some none) :
    prune_price_history now history addr = some data := by
  have hk : prune_keeps now data = true := by
    rcases hupd with h | h <;> simp [prune_keeps, h]
  simp [prune_price_history, hrec, hk]

/-- C10 witness: a record with no updated field is kept. -/
theorem C10_witness :
    prune_price_history 5000000
      (fun a => if a = "x" then
        some { priceUsd := none, liquidity := none, name := none, txns_h1 := 0,
               txns_h24 := 0, volume_h1 := 0, updated := none, samples := [] }
       else none) "x"
      = some { priceUsd := none, liquidity := none, name := none, txns_h1 := 0,
               txns_h24 := 0, volume_h1 := 0, updated := none, samples := [] } :=
  C10_unparseable_updated_retained 5000000 _ "x" _ (by decide) (Or.inl rfl)

/-- C7: alert state is mutated only on successful dispatch. For a gem in
a cycle, the seen timestamp, the daily counter and the alert log are
written exactly when the daily cap allows the alert and the send
succeeds; a gem suppressed by the cap or whose send fails leaves the
whole state unchanged. -/
theorem C7_state_only_on_dispatch (now : ℚ) (today : String) (send_ok : Bool)
    (st : LoopState) (gem : Gem) :
    (can_alert_today today st.alert_counts (gem.token.tokenAddress.getD "") = false →
      process_gem now today send_ok st gem = st)
    ∧ (send_ok = false → process_gem now today send_ok st gem = st)
    ∧ (can_alert_today today st.alert_counts (gem.token.tokenAddress.getD "") = true →
       send_ok = true →
      (process_gem now today send_ok st gem).seen (gem.token.tokenAddress.getD "") = some now
      ∧ (process_gem now today send_ok st gem).alert_counts
          = bump_alert_count today st.alert_counts (gem.token.tokenAddress.getD "")
      ∧ (process_gem now today send_ok st gem).alert_log
          = st.alert_log ++ [{ ts := now, addr := gem.token.tokenAddress,
                               name := gem.token.name, symbol := gem.token.symbol,
                               liquidity := gem.liquidity }]
      ∧ ∀ a, a ≠ gem.token.tokenAddress.getD "" →
          (process_gem now today send_ok st gem).seen a = st.seen a) := by
  refine ⟨?_, ?_, ?_⟩
  · intro hcap
    simp [process_gem, hcap]
  · intro hsend
    subst hsend
    by_cases hcap : can_alert_today today st.alert_counts (gem.token.tokenAddress.getD "") = true
    · simp [process_gem, hcap]
    · simp only [Bool.not_eq_true] at hcap
      simp [process_gem, hcap]
  · intro hcap hsend
    subst hsend
    refine ⟨?_, ?_, ?_, ?_⟩
    · simp [process_gem, hcap]
    · simp [process_gem, hcap]
    · simp [process_gem, hcap, record_alert]
    · intro a ha
      simp [process_gem, hcap, ha]

/-- Concrete loop state for the C7 witness. -/
def stW : LoopState :=
  { seen := fun _ => none, alert_counts := fun _ => none, alert_log := [] }

/-- Concrete gem for the C7 witness. -/
def gemW : Gem :=
  { token := { tokenAddress := some "g", name := some "G", symbol := some "GG",
               createdAt := some 0, liquidity := some 30000, priceUsd := some 1 },
    indicators := [Indicator.liqGrowth], age_hours := 10, liquidity := 30000, dex_data := none }

/-- C7 witness: with an empty state and a successful send, the three
stores are written. -/
theorem C7_witness :
    (process_gem 1000 "2026-10-12" true stW gemW).seen (gemW.token.tokenAddress.getD "") = some 1000
    ∧ (process_gem 1000 "2026-10-12" true stW gemW).alert_counts
        = bump_alert_count "2026-10-12" stW.alert_counts (gemW.token.tokenAddress.getD "")
    ∧ (process_gem 1000 "2026-10-12" true stW gemW).alert_log
        = stW.alert_log ++ [{ ts := 1000, addr := gemW.token.tokenAddress,
                              name := gemW.token.name, symbol := gemW.token.symbol,
                              liquidity := gemW.liquidity }] := by
  have h := (C7_state_only_on_dispatch 1000 "2026-10-12" true stW gemW).2.2 (by decide) rfl
  exact ⟨h.1, h.2.1, h.2.2.1⟩

/-- When the address is present, the cooldown passes, the creation time
parses and the age and liquidity filters pass, analyze_token runs its
post-gate body. -/
theorem analyze_token_eq_core
    (now created : ℚ) (token : Token) (history : History) (seen : Seen)
    (dex : Option DexData) (addr : String)
    (haddr : token.tokenAddress = some addr)
    (hsa : should_alert REALERT_HOURS now seen addr = true)
    (hc : token.createdAt = some created)
    (hage : ¬((now - created) / 3600 < MIN_AGE_HOURS ∨ (now - created) / 3600 > MAX_AGE_HOURS))
    (hliq1 : ¬(token.liquidity.getD 0 < MIN_LIQUIDITY))
    (hliq2 : ¬(token.liquidity.getD 0 > MAX_LIQUIDITY)) :
    analyze_token now token history seen dex
      = analyze_core now token addr ((now - created) / 3600) (token.liquidity.getD 0) history dex := by
  simp [analyze_token, haddr, hsa, hc, hage, hliq1, hliq2]

/-- C3 counterexample, two concrete inputs. First, the claimed numeric
instance itself: prior liquidity 100000 and current liquidity 160000
give ratio 1.6, yet analyze_token emits nothing because 160000 exceeds
MAX_LIQUIDITY, so the token never reaches the momentum rules. Second, a
token inside the liquidity band whose prior record has a known prior
liquidity and ratio 1.6 but no current price: the momentum block is
skipped and no liquidity-growth indicator is emitted. -/
theorem C3_counterexample :
    ((analyze_token 1000000
      { tokenAddress := some "a", name := none, symbol := none,
        createdAt := some 964000, liquidity := some 160000, priceUsd := some 2 }
      (fun a => if a = "a" then
        some { priceUsd := some 1, liquidity := some 100000, name := none, txns_h1 := 0,
               txns_h24 := 0, volume_h1 := 0, updated := some (some 999000), samples := [] }
       else none)
      (fun _ => none) none).1 = none
     ∧ (160000 : ℚ) / 100000 ≥ MIN_LIQUIDITY_GROWTH)
    ∧ ((analyze_token 1000000
      { tokenAddress := some "b", name := none, symbol := none,
        createdAt := some 964000, liquidity := some 32000, priceUsd := none }
      (fun a => if a = "b" then
        some { priceUsd := some 1, liquidity := some 20000, name := none, txns_h1 := 0,
               txns_h24 := 0, volume_h1 := 0, updated := some (some 999000), samples := [] }
       else none)
      (fun _ => none) none).1 = none
     ∧ (32000 : ℚ) / 20000 ≥ MIN_LIQUIDITY_GROWTH) := by
  refine ⟨⟨?_, ?_⟩, ?_, ?_⟩ <;> decide

/-- C3 amended: for a prior record with known nonzero prior price and
prior liquidity and a known nonzero current price, inside the momentum
block of analyze_token the liquidity-growth indicator is emitted exactly
when the liquidity ratio reaches MIN_LIQUIDITY_GROWTH. -/
theorem C3_liq_growth_iff (age_hours current_price liq pp pl : ℚ)
    (hpp : pp ≠ 0) (hpl : pl ≠ 0) :
    Indicator.liqGrowth ∈ momentum_indicators age_hours current_price liq (some pp) (some pl)
      ↔ liq / pl ≥ MIN_LIQUIDITY_GROWTH := by
  simp only [momentum_indicators]
  rw [if_neg (by tauto : ¬(pp = 0 ∨ pl = 0))]
  simp only [List.mem_append]
  split_ifs <;> simp_all

/-- C3 witness: prior liquidity 40000 with current 64000 (ratio 1.6)
emits the indicator; current 56000 (ratio 1.4) does not. -/
theorem C3_witness :
    Indicator.liqGrowth ∈ momentum_indicators 10 1 64000 (some 1) (some 40000)
    ∧ Indicator.liqGrowth ∉ momentum_indicators 10 1 56000 (some 1) (some 40000) :=
  ⟨(C3_liq_growth_iff 10 1 64000 1 40000 (by decide) (by decide)).mpr (by decide),
   fun hmem =>
     absurd ((C3_liq_growth_iff 10 1 56000 1 40000 (by decide) (by decide)).mp hmem)
       (by decide)⟩

/-- An indicator present before the tail survives into the returned gem. -/
theorem analyze_tail_mem (now : ℚ) (token : Token) (addr : String) (age_hours liq : ℚ)
    (indicators : List Indicator) (history : History) (dex : Option DexData) (i : Indicator)
    (hi : i ∈ indicators) :
    ∃ g, (analyze_tail now token addr age_hours liq indicators history dex).1 = some g
       ∧ i ∈ g.indicators := by
  simp only [analyze_tail]
  have hmem : i ∈ indicators ++ spike_indicators history addr (dex_fetched history addr dex) :=
    List.mem_append.mpr (Or.inl hi)
  rw [if_neg (List.ne_nil_of_mem hmem)]
  exact ⟨_, rfl, hmem⟩

/-- C4: the 24h liquidity growth gate. It computes no ratio when the age
is below 24 hours or no stored sample lies at or before now minus 24
hours; when a ratio is computed, a value at or above MIN_LIQ_GROWTH_24H
puts the 24h indicator into the returned gem, a value below it makes
analyze_token reject the token outright with the history unchanged, and
when no ratio is computed the analysis proceeds to the history update
instead of rejecting. -/
theorem C4_gate24_behaviour
    (now created r : ℚ) (token : Token) (history : History) (seen : Seen)
    (dex : Option DexData) (addr : String)
    (haddr : token.tokenAddress = some addr)
    (hsa : should_alert REALERT_HOURS now seen addr = true)
    (hc : token.createdAt = some created)
    (hage : ¬((now - created) / 3600 < MIN_AGE_HOURS ∨ (now - created) / 3600 > MAX_AGE_HOURS))
    (hliq1 : ¬(token.liquidity.getD 0 < MIN_LIQUIDITY))
    (hliq2 : ¬(token.liquidity.getD 0 > MAX_LIQUIDITY)) :
    ((now - created) / 3600 < 24
        ∨ (hist_samples history addr).filter
            (fun s => decide (s.ts.getD 0 ≤ now - 24 * 3600)) = [] →
      gate24_ratio now (token.liquidity.getD 0) ((now - created) / 3600)
        (hist_samples history addr) = none)
    ∧ (gate24_ratio now (token.liquidity.getD 0) ((now - created) / 3600)
          (hist_samples history addr) = some r →
       r ≥ MIN_LIQ_GROWTH_24H →
       ∃ g, (analyze_token now token history seen dex).1 = some g
          ∧ Indicator.liq24Growth ∈ g.indicators)
    ∧ (gate24_ratio now (token.liquidity.getD 0) ((now - created) / 3600)
          (hist_samples history addr) = some r →
       r < MIN_LIQ_GROWTH_24H →
       analyze_token now token history seen dex = (none, history))
    ∧ (gate24_ratio now (token.liquidity.getD 0) ((now - created) / 3600)
          (hist_samples history addr) = none →
       (analyze_token now token history seen dex).2
         = update_history now addr token (token.liquidity.getD 0)
             (dex_fetched history addr dex) history) := by
  refine ⟨?_, ?_, ?_, ?_⟩
  · intro h
    rcases h with h | h
    · simp only [gate24_ratio]
      rw [if_neg (fun hcon => (not_le.mpr h) hcon.1)]
    · by_cases hcond : ((now - created) / 3600 ≥ 24 ∧ hist_samples history addr ≠ [])
      · simp only [gate24_ratio]
        rw [if_pos hcond]
        simp only [h, List.getLast?_nil]
      · simp only [gate24_ratio]
        rw [if_neg hcond]
  · intro h24 hr
    rw [analyze_token_eq_core now created token history seen dex addr haddr hsa hc hage hliq1 hliq2]
    simp only [analyze_core, h24]
    rw [if_pos hr]
    exact analyze_tail_mem _ _ _ _ _ _ _ _ _ (List.mem_append.mpr (Or.inr (by simp)))
  · intro h24 hr
    rw [analyze_token_eq_core now created token history seen dex addr haddr hsa hc hage hliq1 hliq2]
    simp only [analyze_core, h24]
    rw [if_neg (show ¬(r ≥ MIN_LIQ_GROWTH_24H) from fun hge => absurd hr (not_lt.mpr hge))]
  · intro h24
    rw [analyze_token_eq_core now created token history seen dex addr haddr hsa hc hage hliq1 hliq2]
    simp only [analyze_core, h24]
    rfl

/-- Concrete token for the C4 witness: aged 30 hours, liquidity 30000. -/
def tokG : Token :=
  { tokenAddress := some "a", name := none, symbol := none,
    createdAt := some 892000, liquidity := some 30000, priceUsd := some 1 }

/-- Concrete history for the C4 witness: one sample 25 hours old with
liquidity 20000, so the 24h ratio is 3/2. -/
def histG : History :=
  fun a => if a = "a" then
    some { priceUsd := some 1, liquidity := some 20000, name := none, txns_h1 := 0,
           txns_h24 := 0, volume_h1 := 0, updated := some (some 910000),
           samples := [{ ts := some 910000, priceUsd := some 1, liquidity := some 20000 }] }
   else none

/-- C4 witness: at ratio exactly 3/2 the 24h indicator lands in the gem. -/
theorem C4_witness :
    ∃ g, (analyze_token 1000000 tokG histG (fun _ => none) none).1 = some g
       ∧ Indicator.liq24Growth ∈ g.indicators :=
  (C4_gate24_behaviour 1000000 892000 (3/2) tokG histG (fun _ => none) none "a"
      rfl (by decide) rfl (by decide) (by decide) (by decide)).2.1 (by decide) (by decide)

set_option maxRecDepth 8000 in
/-- The record update_history stores at the written address. -/
theorem update_history_at (now : ℚ) (addr : String) (token : Token) (liq : ℚ)
    (dex_data : Option DexData) (history : History) :
    ∃ rec, update_history now addr token liq dex_data history addr = some rec
      ∧ rec.samples = updated_samples now token.priceUsd liq
          ((history addr).getD emptyRecord).samples
      ∧ rec.priceUsd = token.priceUsd
      ∧ rec.liquidity = some liq
      ∧ rec.updated = some (some now) := by
  have h : update_history now addr token liq dex_data history addr
      = some { priceUsd := token.priceUsd
               liquidity := some liq
               name := token.name
               txns_h1 := match dex_data with
                 | some d => d.txns_h1
                 | none => ((history addr).getD emptyRecord).txns_h1
               txns_h24 := match dex_data with
                 | some d => d.txns_h24
                 | none => ((history addr).getD emptyRecord).txns_h24
               volume_h1 := match dex_data with
                 | some d => d.volume_h1
                 | none => ((history addr).getD emptyRecord).volume_h1
               updated := some (some now)
               samples := updated_samples now token.priceUsd liq
                 ((history addr).getD emptyRecord).samples } := by
    simp [update_history]
  exact ⟨_, h, rfl, rfl, rfl, rfl⟩

set_option maxRecDepth 8000 in
/-- C2 counterexample: a snapshot that fails the eligibility gate (age 2
hours) leaves the stored history record untouched, with no new sample
appended, against the claim that every processed snapshot updates it. -/
theorem C2_counterexample :
    (analyze_token 1000000
      { tokenAddress := some "a", name := none, symbol := none,
        createdAt := some 992800, liquidity := some 50000, priceUsd := some 2 }
      (fun a => if a = "a" then
        some { priceUsd := some 1, liquidity := some 25000, name := none, txns_h1 := 0,
               txns_h24 := 0, volume_h1 := 0, updated := some (some 999000), samples := [] }
       else none)
      (fun _ => none) none).2 "a"
      = some { priceUsd := some 1, liquidity := some 25000, name := none, txns_h1 := 0,
               txns_h24 := 0, volume_h1 := 0, updated := some (some 999000), samples := [] } := by
  decide

/-- C2 amended: the history store is left unchanged unless the snapshot
has an address, passes the cooldown, has a creation time, and passes the
age and liquidity gates, in which case analyze_token commits the history
rewrite; and whenever additionally the 24h gate computes no rejecting
ratio, the stored record for the address carries a freshly appended
samples list and overwritten last-known fields. -/
theorem C2_history_update_exactly_on_pass (now : ℚ) (token : Token) (history : History)
    (seen : Seen) (dex : Option DexData) :
    ((analyze_token now token history seen dex).2 = history
      ∨ ∃ addr created,
          token.tokenAddress = some addr
          ∧ should_alert REALERT_HOURS now seen addr = true
          ∧ token.createdAt = some created
          ∧ ¬((now - created) / 3600 < MIN_AGE_HOURS ∨ (now - created) / 3600 > MAX_AGE_HOURS)
          ∧ ¬(token.liquidity.getD 0 < MIN_LIQUIDITY)
          ∧ ¬(token.liquidity.getD 0 > MAX_LIQUIDITY)
          ∧ (analyze_token now token history seen dex).2
              = update_history now addr token (token.liquidity.getD 0)
                  (dex_fetched history addr dex) history)
    ∧ (∀ addr created,
        token.tokenAddress = some addr →
        should_alert REALERT_HOURS now seen addr = true →
        token.createdAt = some created →
        ¬((now - created) / 3600 < MIN_AGE_HOURS ∨ (now - created) / 3600 > MAX_AGE_HOURS) →
        ¬(token.liquidity.getD 0 < MIN_LIQUIDITY) →
        ¬(token.liquidity.getD 0 > MAX_LIQUIDITY) →
        (∀ r, gate24_ratio now (token.liquidity.getD 0) ((now - created) / 3600)
            (hist_samples history addr) = some r → r ≥ MIN_LIQ_GROWTH_24H) →
        ∃ rec, (analyze_token now token history seen dex).2 addr = some rec
          ∧ rec.samples = updated_samples now token.priceUsd (token.liquidity.getD 0)
              ((history addr).getD emptyRecord).samples
          ∧ rec.priceUsd = token.priceUsd
          ∧ rec.liquidity = some (token.liquidity.getD 0)
          ∧ rec.updated = some (some now)) := by
  constructor
  · rcases haddr : token.tokenAddress with _ | addr
    · left
      simp [analyze_token, haddr]
    · by_cases hsa : should_alert REALERT_HOURS now seen addr = true
      swap
      · left
        simp [analyze_token, haddr, hsa]
      · rcases hc : token.createdAt with _ | created
        · left
          simp [analyze_token, haddr, hsa, hc]
        · by_cases hage : ((now - created) / 3600 < MIN_AGE_HOURS
              ∨ (now - created) / 3600 > MAX_AGE_HOURS)
          · left
            simp [analyze_token, haddr, hsa, hc, hage]
          · by_cases hl1 : token.liquidity.getD 0 < MIN_LIQUIDITY
            · left
              simp [analyze_token, haddr, hsa, hc, hage, hl1]
            · by_cases hl2 : token.liquidity.getD 0 > MAX_LIQUIDITY
              · left
                simp [analyze_token, haddr, hsa, hc, hage, hl1, hl2]
              · rcases h24 : gate24_ratio now (token.liquidity.getD 0) ((now - created) / 3600)
                    (hist_samples history addr) with _ | r
                · right
                  refine ⟨addr, created, rfl, hsa, rfl, hage, hl1, hl2, ?_⟩
                  rw [analyze_token_eq_core now created token history seen dex addr
                    haddr hsa hc hage hl1 hl2]
                  simp only [analyze_core, h24]
                  rfl
                · by_cases hge : r ≥ MIN_LIQ_GROWTH_24H
                  · right
                    refine ⟨addr, created, rfl, hsa, rfl, hage, hl1, hl2, ?_⟩
                    rw [analyze_token_eq_core now created token history seen dex addr
                      haddr hsa hc hage hl1 hl2]
                    simp only [analyze_core, h24]
                    rw [if_pos hge]
                    rfl
                  · left
                    rw [analyze_token_eq_core now created token history seen dex addr
                      haddr hsa hc hage hl1 hl2]
                    simp only [analyze_core, h24]
                    rw [if_neg hge]
  · intro addr created haddr hsa hc hage hl1 hl2 hgate
    rw [analyze_token_eq_core now created token history seen dex addr haddr hsa hc hage hl1 hl2]
    rcases h24 : gate24_ratio now (token.liquidity.getD 0) ((now - created) / 3600)
        (hist_samples history addr) with _ | r
    · simp only [analyze_core, h24]
      exact update_history_at now addr token (token.liquidity.getD 0)
        (dex_fetched history addr dex) history
    · simp only [analyze_core, h24]
      rw [if_pos (hgate r h24)]
      exact update_history_at now addr token (token.liquidity.getD 0)
        (dex_fetched history addr dex) history

/-- Concrete token for the C2 witness: aged 10 hours, liquidity 30000,
first observation (no stored record). -/
def tokC2 : Token :=
  { tokenAddress := some "c", name := none, symbol := none,
    createdAt := some 964000, liquidity := some 30000, priceUsd := some 1 }

/-- C2 witness: a passing snapshot creates the record with its appended
sample and overwritten last-known fields. -/
theorem C2_witness :
    ∃ rec, (analyze_token 1000000 tokC2 (fun _ => none) (fun _ => none) none).2 "c" = some rec
      ∧ rec.samples = updated_samples 1000000 (some 1) 30000 []
      ∧ rec.priceUsd = some 1
      ∧ rec.liquidity = some 30000
      ∧ rec.updated = some (some 1000000) :=
  (C2_history_update_exactly_on_pass 1000000 tokC2 (fun _ => none) (fun _ => none) none).2
    "c" 964000 rfl (by decide) rfl (by decide) (by decide) (by decide)
    (fun r hr => by simp [gate24_ratio, hist_samples] at hr)

/-- The maintained samples list never exceeds 500 entries. -/
theorem updated_samples_length_le (now : ℚ) (p : Option ℚ) (liq : ℚ) (l : List Sample) :
    (updated_samples now p liq l).length ≤ 500 := by
  simp only [updated_samples, takeLast]
  rw [List.length_drop]
  omega

/-- The maintained samples list holds nothing older than seven days. -/
theorem updated_samples_recent (now : ℚ) (p : Option ℚ) (liq : ℚ) (l : List Sample) :
    ∀ s ∈ updated_samples now p liq l, now - 7 * 24 * 3600 ≤ s.ts.getD 0 := by
  intro s hs
  simp only [updated_samples, takeLast] at hs
  have hs2 := List.mem_of_mem_drop hs
  rw [List.mem_filter] at hs2
  have h := hs2.2
  simp only [decide_eq_true_eq, ge_iff_le] at h
  exact h

/-- The maintained samples list stays sorted when the stored list was
sorted and no stored timestamp lies in the future. -/
theorem updated_samples_sorted (now : ℚ) (p : Option ℚ) (liq : ℚ) (l : List Sample)
    (hs : List.Pairwise sampleLE l) (hb : ∀ s ∈ l, s.ts.getD 0 ≤ now) :
    List.Pairwise sampleLE (updated_samples now p liq l) := by
  simp only [updated_samples, takeLast]
  apply List.Pairwise.sublist (List.drop_sublist _ _)
  apply List.Pairwise.sublist (List.filter_sublist _)
  apply List.pairwise_append.mpr
  refine ⟨hs, by simp, ?_⟩
  intro a ha b hb2
  simp only [List.mem_singleton] at hb2
  subst hb2
  unfold sampleLE
  simpa using hb a ha

/-- C8: after the history update routine the stored samples list has at
most 500 entries, holds no entry older than seven days before now, and
is ordered by non-decreasing timestamp, given that the prior stored list
was so ordered with no timestamp in the future. -/
theorem C8_samples_invariant (now : ℚ) (addr : String) (token : Token) (liq : ℚ)
    (dex_data : Option DexData) (history : History)
    (hsorted : List.Pairwise sampleLE ((history addr).getD emptyRecord).samples)
    (hbound : ∀ s ∈ ((history addr).getD emptyRecord).samples, s.ts.getD 0 ≤ now) :
    ∃ rec, update_history now addr token liq dex_data history addr = some rec
      ∧ rec.samples.length ≤ 500
      ∧ (∀ s ∈ rec.samples, now - 7 * 24 * 3600 ≤ s.ts.getD 0)
      ∧ List.Pairwise sampleLE rec.samples := by
  obtain ⟨rec, hrec, hsamp, -, -, -⟩ := update_history_at now addr token liq dex_data history
  refine ⟨rec, hrec, ?_, ?_, ?_⟩ <;> rw [hsamp]
  · exact updated_samples_length_le now token.priceUsd liq _
  · exact updated_samples_recent now token.priceUsd liq _
  · exact updated_samples_sorted now token.priceUsd liq _ hsorted hbound

/-- Concrete history for the C8 witness: two sorted stored samples. -/
def histS : History :=
  fun a => if a = "s" then
    some { priceUsd := some 1, liquidity := some 25000, name := none, txns_h1 := 0,
           txns_h24 := 0, volume_h1 := 0, updated := some (some 200),
           samples := [{ ts := some 100, priceUsd := some 1, liquidity := some 20000 },
                       { ts := some 200, priceUsd := some 1, liquidity := some 25000 }] }
   else none

/-- C8 witness: the invariant evaluated on a concrete store. -/
theorem C8_witness :
    ∃ rec, update_history 300 "s"
        { tokenAddress := some "s", name := none, symbol := none,
          createdAt := some 0, liquidity := some 30000, priceUsd := some 1 }
        30000 none histS "s" = some rec
      ∧ rec.samples.length ≤ 500
      ∧ (∀ s ∈ rec.samples, (300 : ℚ) - 7 * 24 * 3600 ≤ s.ts.getD 0)
      ∧ List.Pairwise sampleLE rec.samples :=
  C8_samples_invariant 300 "s"
    { tokenAddress := some "s", name := none, symbol := none,
      createdAt := some 0, liquidity := some 30000, priceUsd := some 1 }
    30000 none histS (by decide) (by decide)
